import Mathlib

set_option autoImplicit false
set_option maxRecDepth 10000

/-!
Verification development for the typefinding heuristics of
`gst/typefind/gsttypefindfunctions.c`.

The byte stream handed to a typefind probe is modelled as a finite list of
bytes (`Nat`s below 256 in every intended input) together with a flag saying
whether the stream's total length is known to the host.  `gst_type_find_peek`
and `gst_type_find_get_length` are modelled directly on that structure.  The
probes under study (`mp3_type_find_at_offset`, `mp3_type_find`,
`qt_type_find`, `matroska_type_find`, `aiff_type_find`, `svx_type_find`) are
translated function by function; C loops become fuel-indexed recursions whose
fuel is chosen generously above the loop's reachable iteration count.
-/

/-- A typefind stream: the bytes available for peeking plus whether the
total length is known (`gst_type_find_get_length` succeeding). -/
structure GstTypeFind where
  data : List Nat
  lengthKnown : Bool
deriving DecidableEq, Repr

/-- Model of `gst_type_find_peek (tf, offset, size)`: returns `size` bytes at
`offset` when the whole span lies inside the stream, and `none` otherwise.
A negative `offset` is relative to the end of the stream and is only
satisfiable when the total length is known. -/
def gst_type_find_peek (tf : GstTypeFind) (offset : Int) (size : Nat) :
    Option (List Nat) :=
  if 0 ≤ offset then
    if offset.toNat + size ≤ tf.data.length then
      some ((tf.data.drop offset.toNat).take size)
    else none
  else
    if tf.lengthKnown then
      if 0 ≤ (tf.data.length : Int) + offset ∧
          (tf.data.length : Int) + offset + size ≤ (tf.data.length : Int) then
        some ((tf.data.drop ((tf.data.length : Int) + offset).toNat).take size)
      else none
    else none

/-- Model of `gst_type_find_get_length`; the C callers treat a result of `0`
(and `(guint64) -1`) as "length unknown", so an unknown length is modelled
as `0`. -/
def gst_type_find_get_length (tf : GstTypeFind) : Nat :=
  if tf.lengthKnown then tf.data.length else 0

/-- `GST_READ_UINT32_BE` on a peeked 4-byte window. -/
def be32 (b : List Nat) : Nat :=
  b.getD 0 0 * 16777216 + b.getD 1 0 * 65536 + b.getD 2 0 * 256 + b.getD 3 0

/-- `GST_READ_UINT64_BE` on a peeked 8-byte window. -/
def be64 (b : List Nat) : Nat :=
  ((((((b.getD 0 0 * 256 + b.getD 1 0) * 256 + b.getD 2 0) * 256 +
    b.getD 3 0) * 256 + b.getD 4 0) * 256 + b.getD 5 0) * 256 +
    b.getD 6 0) * 256 + b.getD 7 0

/-- The `mp3types_bitrates` table (indexed: MPEG1-vs-other, layer-1, bitrate
index). -/
def mp3types_bitrates : List (List (List Nat)) :=
  [[[0, 32, 64, 96, 128, 160, 192, 224, 256, 288, 320, 352, 384, 416, 448],
    [0, 32, 48, 56, 64, 80, 96, 112, 128, 160, 192, 224, 256, 320, 384],
    [0, 32, 40, 48, 56, 64, 80, 96, 112, 128, 160, 192, 224, 256, 320]],
   [[0, 32, 48, 56, 64, 80, 96, 112, 128, 144, 160, 176, 192, 224, 256],
    [0, 8, 16, 24, 32, 40, 48, 56, 64, 80, 96, 112, 128, 144, 160],
    [0, 8, 16, 24, 32, 40, 48, 56, 64, 80, 96, 112, 128, 144, 160]]]

/-- The `mp3types_freqs` table (indexed: version row, sampling-frequency
index). -/
def mp3types_freqs : List (List Nat) :=
  [[11025, 12000, 8000], [22050, 24000, 16000], [44100, 48000, 32000]]

/-- Result of `mp3_type_frame_length_from_header`: either the header is
rejected (`bad`, carrying the `may_be_free_format` flag the C function sets
through its out-parameter), or it parses to a frame length together with
the layer, channel count, bitrate and sample rate written through the
out-parameters. -/
inductive Mp3ParseResult where
  | bad (mayBeFree : Bool)
  | good (length layer channels bitrate samplerate : Nat)
deriving DecidableEq, Repr

/-- Model of `mp3_type_frame_length_from_header` (C lines 476-566).  The C
`gint possible_free_framelen` is `-1` or a non-negative length; `-1` is
modelled as `none`.  A C return value of `0` (invalid header) is `bad`,
except that a free-format header with a known framelen can legitimately
compute length `0`, which the caller checks; that case is `good 0 …`
exactly as the C function returns `0` after writing the out-parameters —
the caller treats any `0` length as "not a header", which the scanner model
reproduces by testing the computed length below. -/
def mp3_type_frame_length_from_header (header : Nat)
    (possible_free_framelen : Option Nat) : Mp3ParseResult :=
  if header &&& 0xffe00000 ≠ 0xffe00000 then .bad false else
  let h1 := header >>> 6
  let mode := h1 &&& 0x3
  let h2 := h1 >>> 3
  let padding := h2 &&& 0x1
  let h3 := h2 >>> 1
  let srIdx := h3 &&& 0x3
  if srIdx = 3 then .bad false else
  let h4 := h3 >>> 2
  let brIdx := h4 &&& 0xF
  if brIdx = 15 ∨ (brIdx = 0 ∧ possible_free_framelen = none) then
    .bad (decide (brIdx = 0 ∧ possible_free_framelen = none))
  else
  let h5 := h4 >>> 5
  let layer := 4 - (h5 &&& 0x3)
  if layer = 4 then .bad false else
  let h6 := h5 >>> 2
  let version := h6 &&& 0x3
  if version = 1 then .bad false else
  let channels := if mode = 3 then 1 else 2
  let samplerate :=
    (mp3types_freqs.getD (if 0 < version then version - 1 else 0) []).getD srIdx 0
  if brIdx = 0 then
    let pfl := possible_free_framelen.getD 0
    if layer = 1 then
      let length := padding * 4 + pfl
      .good length layer channels (length * samplerate / 48000) samplerate
    else
      let length := padding + pfl
      .good length layer channels
        (length * samplerate /
          (if layer = 3 ∧ version ≠ 3 then 72000 else 144000)) samplerate
  else
    let bitrate :=
      ((mp3types_bitrates.getD (if version = 3 then 0 else 1) []).getD
        (layer - 1) []).getD brIdx 0
    if layer = 1 then
      .good ((12000 * bitrate / samplerate + padding) * 4) layer channels
        bitrate samplerate
    else
      .good (padding + (if layer = 3 ∧ version ≠ 3 then 72000 else 144000) *
        bitrate / samplerate) layer channels bitrate samplerate

/-- `GST_MP3_TYPEFIND_TRY_HEADERS`. -/
def GST_MP3_TYPEFIND_TRY_HEADERS : Nat := 5

/-- `GST_MP3_TYPEFIND_MIN_HEADERS`. -/
def GST_MP3_TYPEFIND_MIN_HEADERS : Nat := 2

/-- `GST_MP3_TYPEFIND_TRY_SYNC` = `GST_TYPE_FIND_MAXIMUM * 100` = 10000. -/
def GST_MP3_TYPEFIND_TRY_SYNC : Nat := 10000

/-- `GST_MP3_TYPEFIND_SYNC_SIZE`. -/
def GST_MP3_TYPEFIND_SYNC_SIZE : Nat := 2048

/-- Model of the peek ladder in `mp3_type_find_at_offset` (C lines 602-606):
`size` is halved before each attempt and the loop stops on success or once
`size ≤ 10`.  Returns the size actually obtained.  The fuel (12 at the call
site, for an initial size of 4096) strictly exceeds the number of possible
halvings, so the fuel-out branch is unreachable. -/
def syncPeekSize (tf : GstTypeFind) (pos : Nat) : Nat → Nat → Option Nat
  | 0, _ => none
  | fuel + 1, size =>
    let s := size / 2
    match gst_type_find_peek tf (pos : Int) s with
    | some _ => some s
    | none => if 10 < s then syncPeekSize tf pos fuel s else none

/-- State of the header-chain loop of `mp3_type_find_at_offset` (C lines
617-673).  `offset`, `found` and the four header-field variables are the
locals of the same names; `lastFreeOffset`/`lastFreeFramelen` model the
function-scoped `last_free_offset`/`last_free_framelen` (C value `-1` is
`none`); `headDataNone` tracks whether the `head_data` pointer is `NULL`. -/
structure ChainState where
  offset : Nat
  found : Nat
  layer : Nat
  channels : Nat
  bitrate : Nat
  samplerate : Nat
  lastFreeOffset : Option Nat
  lastFreeFramelen : Option Nat
  headDataNone : Bool
deriving DecidableEq, Repr

/-- The 4-byte header read of C lines 624-629: read in place when the
candidate header lies strictly inside the currently buffered window
(`data + offset - skipped + 4 < data_end`, with the `gint64` sign guard),
and issue a fresh `gst_type_find_peek` otherwise.  The buffered window
holds the stream bytes starting at `start_off + skipped`, so an in-window
read yields the stream bytes at `start_off + offset`. -/
def headRead (tf : GstTypeFind) (startOff skipped size offset : Nat) :
    Option (List Nat) :=
  if 0 ≤ (offset : Int) - (skipped : Int) + 4 ∧
      (offset : Int) - (skipped : Int) + 4 < (size : Int) then
    some ((tf.data.drop (startOff + offset)).take 4)
  else
    gst_type_find_peek tf ((startOff + offset : Nat) : Int) 4

/-- One successful-parse update of the chain loop (C lines 654-672).  The
`prev_*` locals are declared and zero-initialised inside the loop body, so
the inconsistency test compares against `0` and the first branch is
unreachable; the translation keeps it verbatim. -/
def chainGood (s : ChainState) (length layer channels bitrate samplerate : Nat) :
    ChainState :=
  let prevLayer := 0
  let prevChannels := 0
  let prevSamplerate := 0
  let s1 : ChainState :=
    { s with layer := layer, channels := channels, bitrate := bitrate,
             samplerate := samplerate, headDataNone := false }
  let s2 : ChainState :=
    if (prevLayer ≠ 0 ∧ prevLayer ≠ layer) ∨
        (prevSamplerate ≠ 0 ∧ prevSamplerate ≠ samplerate) ∨
        (prevChannels ≠ 0 ∧ prevChannels ≠ channels) then
      s1
    else
      { s1 with found := s1.found + 1 }
  { s2 with offset := s2.offset + length }

/-- The header-chain loop `while (found < GST_MP3_TYPEFIND_TRY_HEADERS)`
(C lines 617-673), as a fuel-indexed recursion.  At most
`TRY_HEADERS + 2` iterations are reachable (each iteration increments
`found`, breaks, or performs the at-most-once free-format rewind), so the
fuel of 16 used at the call site cannot run out. -/
def chainLoop (tf : GstTypeFind) (startOff skipped size : Nat) :
    Nat → ChainState → ChainState
  | 0, s => s
  | fuel + 1, s =>
    if s.found < GST_MP3_TYPEFIND_TRY_HEADERS then
      match headRead tf startOff skipped size s.offset with
      | none => { s with headDataNone := true }
      | some headData =>
        let head := be32 headData
        match mp3_type_frame_length_from_header head s.lastFreeFramelen with
        | .good length layer channels bitrate samplerate =>
          if length = 0 then
            -- a computed length of 0 fails the C test `!(length = ...)`;
            -- reachable only for free-format headers with framelen 0
            { s with lastFreeFramelen := none, headDataNone := false }
          else
            chainLoop tf startOff skipped size fuel
              (chainGood s length layer channels bitrate samplerate)
        | .bad free =>
          if free then
            match s.lastFreeOffset with
            | none =>
              { s with lastFreeOffset := some s.offset, headDataNone := false }
            | some lastFreeOffset =>
              chainLoop tf startOff skipped size fuel
                { s with offset := lastFreeOffset,
                         lastFreeFramelen := some (s.offset - lastFreeOffset),
                         headDataNone := false }
          else
            { s with lastFreeFramelen := none, headDataNone := false }
    else s

/-- The probability computation of the scanner's confirmation path
(C lines 678-698): the exact integer formula, the `GST_TYPE_FIND_MINIMUM`
floor, the halving for a non-zero scan start, and the trailing-ID3-"TAG"
check at offset `-128`. -/
def mp3ComputeProb (tf : GstTypeFind) (startOff found skipped : Nat) : Nat :=
  let probability := found * 100 * (GST_MP3_TYPEFIND_TRY_SYNC - skipped) /
    GST_MP3_TYPEFIND_TRY_HEADERS / GST_MP3_TYPEFIND_TRY_SYNC
  let probability := if probability < 1 then 1 else probability
  let probability := if 0 < startOff then probability / 2 else probability
  match gst_type_find_peek tf (-128) 3 with
  | none => probability * 4 / 5
  | some tag => if tag = [84, 65, 71] then 0 else probability

/-- Observable result of `mp3_type_find_at_offset`: the two out-parameters
`found_layer` and `found_prob`, plus — exposed for specification purposes —
the values of the C locals `found` and `skipped` at the moment the chain
was confirmed (both `0` when the scan failed). -/
structure Mp3ScanResult where
  layer : Nat
  prob : Nat
  found : Nat
  skipped : Nat
deriving DecidableEq, Repr

/-- State of the outer byte-by-byte sync scan of `mp3_type_find_at_offset`
(C lines 598-710): the current `skipped` count, the remaining buffered
window size (`0` forces a re-peek), and the persistent free-format
tracking variables. -/
structure Mp3OuterState where
  skipped : Nat
  size : Nat
  lastFreeOffset : Option Nat
  lastFreeFramelen : Option Nat
deriving DecidableEq, Repr

/-- The outer `while (skipped < GST_MP3_TYPEFIND_TRY_SYNC)` loop of
`mp3_type_find_at_offset` (C lines 600-710).  Each iteration either
terminates the scan or increments `skipped`, so fuel
`GST_MP3_TYPEFIND_TRY_SYNC + 1` cannot run out. -/
def mp3OuterLoop (tf : GstTypeFind) (startOff : Nat) :
    Nat → Mp3OuterState → Mp3ScanResult
  | 0, _ => ⟨0, 0, 0, 0⟩
  | fuel + 1, st =>
    if st.skipped < GST_MP3_TYPEFIND_TRY_SYNC then
      match (if st.size = 0 then
              syncPeekSize tf (st.skipped + startOff) 12
                (GST_MP3_TYPEFIND_SYNC_SIZE * 2)
             else some st.size) with
      | none => ⟨0, 0, 0, 0⟩
      | some size =>
        if tf.data.getD (startOff + st.skipped) 0 = 0xFF then
          let cs := chainLoop tf startOff st.skipped size 16
            ⟨st.skipped, 0, 0, 0, 0, 0, st.lastFreeOffset,
             st.lastFreeFramelen, true⟩
          if cs.found = GST_MP3_TYPEFIND_TRY_HEADERS ∨
              (GST_MP3_TYPEFIND_MIN_HEADERS ≤ cs.found ∧ cs.headDataNone) then
            let probability := mp3ComputeProb tf startOff cs.found st.skipped
            ⟨if 0 < probability then cs.layer else 0, probability,
             cs.found, st.skipped⟩
          else
            mp3OuterLoop tf startOff fuel
              ⟨st.skipped + 1, size - 1, cs.lastFreeOffset, cs.lastFreeFramelen⟩
        else
          mp3OuterLoop tf startOff fuel
            ⟨st.skipped + 1, size - 1, st.lastFreeOffset, st.lastFreeFramelen⟩
    else ⟨0, 0, 0, 0⟩

/-- Model of `mp3_type_find_at_offset (tf, start_off, &found_layer,
&found_prob)` (C lines 584-711). -/
def mp3_type_find_at_offset (tf : GstTypeFind) (startOff : Nat) :
    Mp3ScanResult :=
  mp3OuterLoop tf startOff (GST_MP3_TYPEFIND_TRY_SYNC + 1) ⟨0, 0, none, none⟩

/-- Model of `mp3_type_find` (C lines 713-782).  The suggestion, when one is
emitted, is the pair (layer, probability); `none` models returning without
calling `gst_type_find_suggest`. -/
def mp3_type_find (tf : GstTypeFind) : Option (Nat × Nat) :=
  let r0 := mp3_type_find_at_offset tf 0
  let length := gst_type_find_get_length tf
  if length = 0 ∨ length = 2 ^ 64 - 1 then
    if r0.prob ≠ 0 then some (r0.layer, r0.prob) else none
  else if 80 ≤ r0.prob then
    -- GST_TYPE_FIND_LIKELY shortcut: "if we're pretty certain already,
    -- skip the additional check"
    some (r0.layer, r0.prob)
  else
    let rm := mp3_type_find_at_offset tf (length / 2)
    if 0 < rm.prob then
      if r0.prob = 0 then some (rm.layer, rm.prob)
      else if r0.layer ≠ rm.layer then none
      else some (r0.layer, (r0.prob + rm.prob) / 2)
    else
      -- C lines 754-762: a valid header right at the start bumps the
      -- probability; note the parse overwrites the local `layer` whenever
      -- it reaches its out-parameter writes, even when it returns length 0
      let bump :=
        match gst_type_find_peek tf 0 4 with
        | none => (r0.layer, r0.prob)
        | some d =>
          match mp3_type_frame_length_from_header (be32 d) (some 0) with
          | .bad _ => (r0.layer, r0.prob)
          | .good length layer _ _ _ =>
            if length ≠ 0 then
              (layer, if r0.prob = 0 then 40 else max 40 (r0.prob + 10))
            else (layer, r0.prob)
      if 0 < bump.2 then some bump else none

/-- The five box/atom types `qt_type_find` shares with the ISO base media
file format (C lines 1367-1371): moov, mdat, ftyp, free, skip. -/
def qtIsoTags : List (List Nat) :=
  [[109, 111, 111, 118], [109, 100, 97, 116], [102, 116, 121, 112],
   [102, 114, 101, 101], [115, 107, 105, 112]]

/-- The quicktime-specific box types (C lines 1379-1381): pnot, PICT,
wide. -/
def qtQuicktimeTags : List (List Nat) :=
  [[112, 110, 111, 116], [80, 73, 67, 84], [119, 105, 100, 101]]

/-- The box-walking loop of `qt_type_find` (C lines 1365-1402), returning
the final value of `tip`.  Each iteration re-peeks 8 bytes at the cursor;
a box size of `1` makes the true size the following 8-byte big-endian
integer; other sizes below 8 end the walk; otherwise the cursor advances
by the decoded size. -/
def qtLoop (tf : GstTypeFind) : Nat → Nat → Nat → Nat
  | 0, _, tip => tip
  | fuel + 1, offset, tip =>
    match gst_type_find_peek tf (offset : Int) 8 with
    | none => tip
    | some d =>
      if qtIsoTags.contains ((d.drop 4).take 4) then
        let tip := if tip = 0 then 80 else 99
        let size := be32 (d.take 4)
        if size = 1 then
          match gst_type_find_peek tf ((offset + 8 : Nat) : Int) 8 with
          | none => tip
          | some sizedata => qtLoop tf fuel (offset + be64 sizedata) tip
        else
          if size < 8 then tip
          else qtLoop tf fuel (offset + size) tip
      else if qtQuicktimeTags.contains ((d.drop 4).take 4) then 100
      else 0

/-- Model of `qt_type_find` (C lines 1357-1406): the suggestion probability,
or `none` when no suggestion is emitted.  Each loop iteration either stops
or (except for the at-most-once zero-size degenerate step) advances the
cursor, so a fuel of `length + 2` covers every terminating run; the
possible infinite loop on a zero extended size is cut off by the fuel. -/
def qt_type_find (tf : GstTypeFind) : Option Nat :=
  let tip := qtLoop tf (tf.data.length + 2) 0 0
  if 0 < tip then some tip else none

/-- Outcome of a probe modelled with bounds-checked window reads: `oob`
records that the C code dereferenced an index outside the span it had
peeked (reading unspecified adjacent memory). -/
inductive ProbeOutcome where
  | oob
  | noSuggest
  | suggest (prob : Nat)
deriving DecidableEq, Repr

/-- The EBML header-length scan of `matroska_type_find` (C lines 1686-1691):
starting from `size = 1`, `len_mask = 0x80`, shift until the marker bit of
`data[4]` is found or `size` exceeds 8.  Returns (size, len_mask). -/
def mkvLenLoop (b4 : Nat) : Nat → Nat → Nat → Nat × Nat
  | size, lenMask, 0 => (size, lenMask)
  | size, lenMask, fuel + 1 =>
    if size ≤ 8 ∧ b4 &&& lenMask = 0 then
      mkvLenLoop b4 (size + 1) (lenMask >>> 1) fuel
    else (size, lenMask)

/-- The header-size accumulation loop of `matroska_type_find` (C lines
1695-1696): `while (n < size) total = (total << 8) | data[4 + n++]`, with
each `data[4 + n]` dereference bounds-checked against the 5-byte window
actually peeked; `none` signals an out-of-window read. -/
def mkvTotalLoop (data : List Nat) (size : Nat) : Nat → Nat → Nat → Option Nat
  | _, total, 0 => some total
  | n, total, fuel + 1 =>
    if n < size then
      match data.get? (4 + n) with
      | none => none
      | some b => mkvTotalLoop data size (n + 1) ((total <<< 8) ||| b) fuel
    else some total

/-- The scan for the ASCII bytes of "matroska" inside the EBML header
(C lines 1704-1712). -/
def mkvSearch (d : List Nat) (size total : Nat) : Bool :=
  (List.range (total - 7)).any fun i =>
    ((d.drop (4 + size + i)).take 8) =
      [109, 97, 116, 114, 111, 115, 107, 97]

/-- Model of `matroska_type_find` (C lines 1671-1713) with bounds-checked
window reads.  The initial peek requests exactly `4 + 1` bytes (EBML ID
plus one length byte); decoding the variable-length header size then
dereferences `data[4 + n]` for `n` up to `size - 1`. -/
def matroska_type_find (tf : GstTypeFind) : ProbeOutcome :=
  match gst_type_find_peek tf 0 (4 + 1) with
  | none => .noSuggest
  | some data =>
    if data.getD 0 0 ≠ 0x1A ∨ data.getD 1 0 ≠ 0x45 ∨
        data.getD 2 0 ≠ 0xDF ∨ data.getD 3 0 ≠ 0xA3 then .noSuggest
    else
      let total0 := data.getD 4 0
      let sm := mkvLenLoop total0 1 0x80 9
      if 8 < sm.1 then .noSuggest
      else
        match mkvTotalLoop data sm.1 1 (total0 &&& (sm.2 - 1)) 8 with
        | none => .oob
        | some total =>
          match gst_type_find_peek tf 0 (4 + sm.1 + total) with
          | none => .noSuggest
          | some d2 =>
            if mkvSearch d2 sm.1 total then .suggest 100 else .noSuggest

/-- A bounds-checked read of `len` bytes at index `off` of a peeked window:
`none` when any index falls outside the window. -/
def windowRead (data : List Nat) (off len : Nat) : Option (List Nat) :=
  if off + len ≤ data.length then some ((data.drop off).take len) else none

/-- Model of `aiff_type_find` (C lines 1214-1224) with bounds-checked window
reads: it peeks 4 bytes at offset 0, compares them with "FORM", then
dereferences bytes 8-11 of that 4-byte window (`data += 8; memcmp (data,
"AIFF", 4)`). -/
def aiff_type_find (tf : GstTypeFind) : ProbeOutcome :=
  match gst_type_find_peek tf 0 4 with
  | none => .noSuggest
  | some data =>
    if data.take 4 = [70, 79, 82, 77] then
      match windowRead data 8 4 with
      | none => .oob
      | some d =>
        if d = [65, 73, 70, 70] ∨ d = [65, 73, 70, 67] then .suggest 100
        else .noSuggest
    else .noSuggest

/-- Model of `svx_type_find` (C lines 1231-1241) with bounds-checked window
reads: it peeks 4 bytes at offset 0, compares them with "FORM", then
dereferences bytes 8-11 of that 4-byte window (`data += 8; memcmp (data,
"8SVX", 4)`). -/
def svx_type_find (tf : GstTypeFind) : ProbeOutcome :=
  match gst_type_find_peek tf 0 4 with
  | none => .noSuggest
  | some data =>
    if data.take 4 = [70, 79, 82, 77] then
      match windowRead data 8 4 with
      | none => .oob
      | some d =>
        if d = [56, 83, 86, 88] ∨ d = [49, 54, 83, 86] then .suggest 100
        else .noSuggest
    else .noSuggest

/-- The confidence computation as the specification words it (claim C3):
`found_frames * MAXIMUM * (TRY_SYNC - bytes_skipped) / TRY_HEADERS /
TRY_SYNC`, floored at `MINIMUM`, halved when the scan did not start at
stream offset 0, then subjected to the end-of-stream trailing-tag check:
zeroed when the 128-bytes-from-end trailer reads "TAG", and scaled by 4/5
when that trailer cannot be read.  Written from the (amended) claim text,
for comparison against `mp3ComputeProb` from the source. -/
def mp3SpecClaimProbability (tf : GstTypeFind) (startOff found skipped : Nat) :
    Nat :=
  let base := found * 100 * (10000 - skipped) / 5 / 10000
  let floored := max base 1
  let adjusted := if 0 < startOff then floored / 2 else floored
  match gst_type_find_peek tf (-128) 3 with
  | some trailer => if trailer = [84, 65, 71] then 0 else adjusted
  | none => adjusted * 4 / 5

/-- The frame length the parser assigns to a header, when the header is
valid (with no free-format framelen hypothesis). -/
def goodFrameLen (header : Nat) : Option Nat :=
  match mp3_type_frame_length_from_header header none with
  | .good length _ _ _ _ => some length
  | .bad _ => none

/-- A well-formed mp3 frame, for the synthetic inputs of claim C2: a byte
sequence of at least header size whose first four bytes parse as a valid
(non-free-format) header whose computed frame length is exactly the
sequence's length. -/
def WFframe (F : List Nat) : Prop :=
  4 ≤ F.length ∧ (∀ b ∈ F, b < 256) ∧
    goodFrameLen (be32 (F.take 4)) = some F.length

instance (F : List Nat) : Decidable (WFframe F) := by
  unfold WFframe; infer_instance

/-- Total length of the first `i` frames of a frame list. -/
def lenUpTo (fs : List (List Nat)) (i : Nat) : Nat :=
  ((fs.take i).map List.length).sum

/-- A 24-byte MPEG2 layer III frame: header FF F3 14 C0 (bitrate 8 kbit/s,
24000 Hz, mono), zero payload. -/
def mp3FrameA : List Nat := [255, 243, 20, 192] ++ List.replicate 20 0

/-- A 36-byte MPEG2 layer III frame: header FF F3 18 C0 (bitrate 8 kbit/s,
16000 Hz, mono), zero payload. -/
def mp3FrameB : List Nat := [255, 243, 24, 192] ++ List.replicate 32 0

/-- A 72-byte MPEG2 layer III frame: header FF F3 28 C0 (bitrate 16 kbit/s,
16000 Hz, mono), zero payload. -/
def mp3FrameWide : List Nat := [255, 243, 40, 192] ++ List.replicate 68 0

/-- A 32-byte MPEG1 layer I frame: header FF FF 10 C0 (bitrate 32 kbit/s,
44100 Hz, mono), zero payload. -/
def mp3FrameL1 : List Nat := [255, 255, 16, 192] ++ List.replicate 28 0

/-- A free-format MPEG2 layer III header (bitrate index 0): FF F3 04 C0. -/
def mp3FreeHeader : List Nat := [255, 243, 4, 192]

/-- Stream of five valid frames whose sample rate changes after the first
frame (24000 Hz, then four at 16000 Hz); 168 bytes. -/
def tfMixedRates : GstTypeFind :=
  ⟨(([mp3FrameA, mp3FrameB, mp3FrameB, mp3FrameB, mp3FrameB] :
      List (List Nat))).flatten, true⟩

/-- Stream of five minimal well-formed frames; 120 bytes, shorter than the
128-byte ID3v1 trailer span. -/
def tfShortFive : GstTypeFind :=
  ⟨(List.replicate 5 mp3FrameA).flatten, true⟩

/-- Stream of five well-formed frames followed by an ID3v1 "TAG" trailer
block; 248 bytes, with "TAG" exactly 128 bytes from the end. -/
def tfTagAfterChain : GstTypeFind :=
  ⟨(List.replicate 5 mp3FrameA).flatten ++ [84, 65, 71] ++
    List.replicate 125 0, true⟩

/-- A 128-byte stream whose last 128 bytes begin with "TAG". -/
def tfTagOnly : GstTypeFind :=
  ⟨[84, 65, 71] ++ List.replicate 125 0, true⟩

/-- A 144-byte stream of three well-formed frames (72 + 36 + 36 bytes), so
that the scan at offset 0 confirms only a 3-frame chain (probability 60)
and the scan at the midpoint 72 confirms a 2-frame chain. -/
def tfSplitScan : GstTypeFind :=
  ⟨mp3FrameWide ++ mp3FrameB ++ mp3FrameB, true⟩

/-- A 256-byte stream with five layer III frames at the start and four
layer I frames starting exactly at the midpoint 128. -/
def tfLayerClash : GstTypeFind :=
  ⟨(List.replicate 5 mp3FrameA).flatten ++ List.replicate 8 0 ++
    (List.replicate 4 mp3FrameL1).flatten, true⟩

/-- A 16-byte stream holding one `moov` box with the extended-size sentinel
(4-byte size 1) and an 8-byte big-endian extended size of 24. -/
def qtExtBox : GstTypeFind :=
  ⟨[0, 0, 0, 1, 109, 111, 111, 118, 0, 0, 0, 0, 0, 0, 0, 24], true⟩

/-- A 2-byte stream, shorter than every probe's minimum span. -/
def tfTiny : GstTypeFind := ⟨[0, 0], true⟩

/-- A 5-byte stream starting with the EBML magic whose length byte `0x40`
declares a 2-byte header-size field. -/
def mkvTwoByteLen : GstTypeFind := ⟨[26, 69, 223, 163, 64], true⟩

/-- A stream beginning with the FORM container magic. -/
def tfFormOnly : GstTypeFind := ⟨[70, 79, 82, 77, 0, 0, 0, 0], true⟩

/-- A 144-byte stream of six copies of the minimal well-formed frame. -/
def tfSixFrames : GstTypeFind :=
  ⟨(List.replicate 6 mp3FrameA).flatten, true⟩

/-- An 8-byte stream starting with a free-format mp3 header. -/
def tfFreeHeader : GstTypeFind :=
  ⟨mp3FreeHeader ++ [0, 0, 0, 0], true⟩


/-- `gst_type_find_peek` at a non-negative (Nat) offset. -/
lemma gst_type_find_peek_nat (tf : GstTypeFind) (pos size : Nat) :
    gst_type_find_peek tf (pos : Int) size =
      if pos + size ≤ tf.data.length then
        some ((tf.data.drop pos).take size)
      else none := by
  unfold gst_type_find_peek
  rw [if_pos (Int.natCast_nonneg pos)]
  simp

/-- The trailing-tag check zeroes the confirmed probability. -/
lemma mp3ComputeProb_tag (tf : GstTypeFind) (startOff found skipped : Nat)
    (h : gst_type_find_peek tf (-128) 3 = some [84, 65, 71]) :
    mp3ComputeProb tf startOff found skipped = 0 := by
  unfold mp3ComputeProb
  rw [h]
  simp

/-- Every exit of the outer scan loop reports probability 0 when the
trailing 128-byte tag block reads "TAG". -/
lemma mp3OuterLoop_tag (tf : GstTypeFind) (startOff : Nat)
    (h : gst_type_find_peek tf (-128) 3 = some [84, 65, 71]) :
    ∀ fuel st, (mp3OuterLoop tf startOff fuel st).prob = 0 := by
  intro fuel
  induction fuel with
  | zero => intro st; rfl
  | succ n ih =>
    intro st
    rw [mp3OuterLoop]
    split
    · split
      · rfl
      · split
        · dsimp only
          split
          · simp [mp3ComputeProb_tag tf startOff _ _ h]
          · exact ih _
        · exact ih _
    · rfl

/-- C4: a trailing "TAG" trailer zeroes the scanner's probability. -/
theorem c4_thm (tf : GstTypeFind) (startOff : Nat)
    (h : gst_type_find_peek tf (-128) 3 = some [84, 65, 71]) :
    (mp3_type_find_at_offset tf startOff).prob = 0 := by
  unfold mp3_type_find_at_offset
  exact mp3OuterLoop_tag tf startOff h _ _

/-- Witness for the C4 theorem at a concrete 128-byte stream. -/
theorem c4_witness :
    gst_type_find_peek tfTagOnly (-128) 3 = some [84, 65, 71] ∧
    (mp3_type_find_at_offset tfTagOnly 0).prob = 0 :=
  ⟨by decide, c4_thm tfTagOnly 0 (by decide)⟩

/-- C3 amended: on every confirmation the reported probability follows the
spec formula with the trailing-tag adjustment, and never exceeds 100. -/
theorem c3_thm (tf : GstTypeFind) (startOff found skipped : Nat)
    (hfound : found ≤ GST_MP3_TYPEFIND_TRY_HEADERS) :
    mp3ComputeProb tf startOff found skipped =
      mp3SpecClaimProbability tf startOff found skipped ∧
    mp3ComputeProb tf startOff found skipped ≤ 100 := by
  unfold GST_MP3_TYPEFIND_TRY_HEADERS at hfound
  have hbase : found * 100 * (10000 - skipped) / 5 / 10000 ≤ 100 := by
    have h1 : found * 100 * (10000 - skipped) ≤ 500 * 10000 :=
      Nat.mul_le_mul (by omega) (by omega)
    have h2 : found * 100 * (10000 - skipped) / 5 ≤ 500 * 10000 / 5 :=
      Nat.div_le_div_right h1
    have h3 : found * 100 * (10000 - skipped) / 5 / 10000 ≤
        500 * 10000 / 5 / 10000 := Nat.div_le_div_right h2
    simpa using h3
  constructor
  · unfold mp3ComputeProb mp3SpecClaimProbability GST_MP3_TYPEFIND_TRY_SYNC
      GST_MP3_TYPEFIND_TRY_HEADERS
    dsimp only
    rcases hpk : gst_type_find_peek tf (-128) 3 with _ | tag <;>
      simp only [hpk] <;> split_ifs <;> omega
  · unfold mp3ComputeProb GST_MP3_TYPEFIND_TRY_SYNC GST_MP3_TYPEFIND_TRY_HEADERS
    dsimp only
    rcases hpk : gst_type_find_peek tf (-128) 3 with _ | tag <;>
      simp only [hpk] <;> split_ifs <;> omega

/-- Witness for the C3 theorem at a concrete confirmation state. -/
theorem c3_thm_witness :
    5 ≤ GST_MP3_TYPEFIND_TRY_HEADERS ∧
    (mp3ComputeProb tfSixFrames 0 5 0 =
        mp3SpecClaimProbability tfSixFrames 0 5 0 ∧
      mp3ComputeProb tfSixFrames 0 5 0 ≤ 100) :=
  ⟨by decide, c3_thm tfSixFrames 0 5 0 (by decide)⟩

/-- C3 counterexample: a confirmed 5-frame chain (found 5, skipped 0) whose
reported probability is 0, not the claim's formula value 100, because the
trailing 128 bytes read "TAG". -/
theorem c3_counterexample :
    mp3_type_find_at_offset tfTagAfterChain 0 =
      ⟨0, 0, 5, 0⟩ ∧
    5 * 100 * (GST_MP3_TYPEFIND_TRY_SYNC - 0) / GST_MP3_TYPEFIND_TRY_HEADERS /
      GST_MP3_TYPEFIND_TRY_SYNC = 100 := by decide

/-- C6: one step of the box walk — extended-size sentinel, invalid small
sizes, and the normal advance. -/
theorem c6_thm (tf : GstTypeFind) (fuel offset tip : Nat) (d : List Nat)
    (hpeek : gst_type_find_peek tf (offset : Int) 8 = some d)
    (htag : qtIsoTags.contains ((d.drop 4).take 4) = true) :
    (be32 (d.take 4) = 1 →
      ∀ sizedata,
        gst_type_find_peek tf ((offset + 8 : Nat) : Int) 8 = some sizedata →
        qtLoop tf (fuel + 1) offset tip =
          qtLoop tf fuel (offset + be64 sizedata) (if tip = 0 then 80 else 99)) ∧
    (be32 (d.take 4) ≠ 1 → be32 (d.take 4) < 8 →
      qtLoop tf (fuel + 1) offset tip = (if tip = 0 then 80 else 99)) ∧
    (8 ≤ be32 (d.take 4) →
      qtLoop tf (fuel + 1) offset tip =
        qtLoop tf fuel (offset + be32 (d.take 4)) (if tip = 0 then 80 else 99)) := by
  refine ⟨?_, ?_, ?_⟩
  · intro h1 sizedata hsd
    rw [qtLoop, hpeek]
    dsimp only
    rw [if_pos htag, if_pos h1, hsd]
  · intro h1 h8
    rw [qtLoop, hpeek]
    dsimp only
    rw [if_pos htag, if_neg h1, if_pos h8]
  · intro h8
    rw [qtLoop, hpeek]
    dsimp only
    rw [if_pos htag, if_neg (by omega), if_neg (by omega)]

/-- Witness for the C6 theorem on a concrete extended-size box. -/
theorem c6_witness :
    gst_type_find_peek qtExtBox (0 : Int) 8 =
      some [0, 0, 0, 1, 109, 111, 111, 118] ∧
    qtLoop qtExtBox 4 0 0 = qtLoop qtExtBox 3 24 80 :=
  ⟨by decide, by
    have h := (c6_thm qtExtBox 3 0 0 [0, 0, 0, 1, 109, 111, 111, 118]
      (by decide) (by decide)).1 (by decide)
      [0, 0, 0, 0, 0, 0, 0, 24] (by decide)
    simpa using h⟩

/-- C7: free-format tracking in the chain loop — the first free-bitrate
header records its offset; the second computes the implied frame length
and rewinds the chain to the recorded offset. -/
theorem c7_thm (tf : GstTypeFind) (startOff skipped size fuel : Nat)
    (s : ChainState) (headData : List Nat)
    (hfound : s.found < GST_MP3_TYPEFIND_TRY_HEADERS)
    (hread : headRead tf startOff skipped size s.offset = some headData)
    (hfree : mp3_type_frame_length_from_header (be32 headData)
      s.lastFreeFramelen = .bad true) :
    (s.lastFreeOffset = none →
      chainLoop tf startOff skipped size (fuel + 1) s =
        { s with lastFreeOffset := some s.offset, headDataNone := false }) ∧
    (∀ lastFreeOffset, s.lastFreeOffset = some lastFreeOffset →
      chainLoop tf startOff skipped size (fuel + 1) s =
        chainLoop tf startOff skipped size fuel
          { s with offset := lastFreeOffset,
                   lastFreeFramelen := some (s.offset - lastFreeOffset),
                   headDataNone := false }) := by
  constructor
  · intro hnone
    rw [chainLoop, if_pos hfound, hread]
    dsimp only
    rw [hfree]
    dsimp only
    rw [hnone]
    simp
  · intro lastFreeOffset hsome
    rw [chainLoop, if_pos hfound, hread]
    dsimp only
    rw [hfree]
    dsimp only
    rw [hsome]
    simp

/-- Witness for the C7 theorem on a concrete free-format header. -/
theorem c7_witness :
    headRead tfFreeHeader 0 0 8 0 = some [255, 243, 4, 192] ∧
    chainLoop tfFreeHeader 0 0 8 5 ⟨0, 0, 0, 0, 0, 0, none, none, true⟩ =
      ⟨0, 0, 0, 0, 0, 0, some 0, none, false⟩ :=
  ⟨by decide, by
    have h := (c7_thm tfFreeHeader 0 0 8 4
      ⟨0, 0, 0, 0, 0, 0, none, none, true⟩ [255, 243, 4, 192]
      (by decide) (by decide) (by decide)).1 rfl
    simpa using h⟩

/-- C1: the scanner counts all five frames of a stream whose sample rate
changes after the first frame — the change-detection branch is dead code. -/
theorem c1_thm :
    mp3_type_find_at_offset tfMixedRates 0 = ⟨3, 100, 5, 0⟩ ∧
    mp3_type_frame_length_from_header (be32 (mp3FrameA.take 4)) none =
      .good 24 3 1 8 24000 ∧
    mp3_type_frame_length_from_header (be32 (mp3FrameB.take 4)) none =
      .good 36 3 1 8 16000 := by decide

/-- C2 counterexample: five consecutive well-formed frames with no other
data, yet the scanner reports probability 80, not 100 (stream shorter than
the 128-byte trailer check span). -/
theorem c2_counterexample :
    (∀ F ∈ List.replicate 5 mp3FrameA, WFframe F) ∧
    tfShortFive.data = (List.replicate 5 mp3FrameA).flatten ∧
    5 ≤ (List.replicate 5 mp3FrameA).length ∧
    mp3_type_find_at_offset tfShortFive 0 = ⟨3, 80, 5, 0⟩ ∧
    (mp3_type_find_at_offset tfShortFive 0).prob ≠ 100 := by decide

/-- C9: decoding the variable-length header-size byte 0x40 (width 2) makes
the Matroska probe dereference index 5 of the 5-byte window it peeked. -/
theorem c9_thm :
    matroska_type_find mkvTwoByteLen = .oob ∧
    mkvLenLoop 0x40 1 0x80 9 = (2, 0x40) ∧
    mkvTotalLoop [26, 69, 223, 163, 64] 2 1 0 8 = none := by decide

/-- C10: after matching "FORM" in their 4-byte windows, both FORM probes
dereference bytes 8-11, outside the peeked span. -/
theorem c10_thm :
    aiff_type_find tfFormOnly = .oob ∧ svx_type_find tfFormOnly = .oob ∧
    gst_type_find_peek tfFormOnly 0 4 = some [70, 79, 82, 77] := by decide

/-- C5 counterexample: length known, both scans succeed with different
layers (3 at the start, 1 at the midpoint), yet a suggestion is emitted
because the offset-0 probability reached LIKELY and the midpoint check was
skipped. -/
theorem c5_counterexample :
    mp3_type_find tfLayerClash = some (3, 100) ∧
    gst_type_find_get_length tfLayerClash = 256 ∧
    mp3_type_find_at_offset tfLayerClash 0 = ⟨3, 100, 5, 0⟩ ∧
    mp3_type_find_at_offset tfLayerClash 128 = ⟨1, 40, 4, 0⟩ := by decide

/-- C5 amended: when the length is known and the offset-0 probability is
below LIKELY, the midpoint scan decides: midpoint alone when offset 0
found nothing, no suggestion on a layer clash, averaged probability on
agreement. -/
theorem c5_thm (tf : GstTypeFind)
    (hlen0 : gst_type_find_get_length tf ≠ 0)
    (hlen1 : gst_type_find_get_length tf ≠ 2 ^ 64 - 1)
    (hprob : (mp3_type_find_at_offset tf 0).prob < 80)
    (hmid : 0 < (mp3_type_find_at_offset tf
      (gst_type_find_get_length tf / 2)).prob) :
    mp3_type_find tf =
      (if (mp3_type_find_at_offset tf 0).prob = 0 then
        some ((mp3_type_find_at_offset tf (gst_type_find_get_length tf / 2)).layer,
          (mp3_type_find_at_offset tf (gst_type_find_get_length tf / 2)).prob)
      else if (mp3_type_find_at_offset tf 0).layer ≠
          (mp3_type_find_at_offset tf (gst_type_find_get_length tf / 2)).layer then
        none
      else
        some ((mp3_type_find_at_offset tf 0).layer,
          ((mp3_type_find_at_offset tf 0).prob +
            (mp3_type_find_at_offset tf (gst_type_find_get_length tf / 2)).prob) / 2)) := by
  unfold mp3_type_find
  dsimp only
  rw [if_neg (by push_neg; exact ⟨hlen0, hlen1⟩), if_neg (by omega), if_pos hmid]

/-- Witness for the C5 theorem on a concrete split stream. -/
theorem c5_thm_witness :
    gst_type_find_get_length tfSplitScan = 144 ∧
    (mp3_type_find_at_offset tfSplitScan 0).prob = 60 ∧
    (mp3_type_find_at_offset tfSplitScan 72).prob = 20 ∧
    mp3_type_find tfSplitScan = some (3, 40) :=
  ⟨by decide, by decide, by decide, by
    have h := c5_thm tfSplitScan (by decide) (by decide) (by decide) (by decide)
    rw [h]
    decide⟩

/-- On a stream shorter than 8 bytes every rung of the peek ladder fails. -/
lemma syncPeekSize_short (tf : GstTypeFind) (pos : Nat)
    (hlen : tf.data.length < 8) :
    ∀ fuel k, 3 ≤ k → syncPeekSize tf pos fuel (2 ^ (k + 1)) = none := by
  intro fuel
  induction fuel with
  | zero => intro k _; rfl
  | succ n ih =>
    intro k hk
    have hhalf : 2 ^ (k + 1) / 2 = 2 ^ k := by
      rw [Nat.pow_succ]
      exact Nat.mul_div_cancel _ (by norm_num)
    have h8 : 8 ≤ 2 ^ k := by
      calc (8 : Nat) = 2 ^ 3 := by norm_num
      _ ≤ 2 ^ k := Nat.pow_le_pow_right (by norm_num) hk
    have hpeek : gst_type_find_peek tf (pos : Int) (2 ^ (k + 1) / 2) = none := by
      rw [gst_type_find_peek_nat, if_neg (by omega)]
    rw [syncPeekSize]
    rw [hpeek, hhalf]
    by_cases hk4 : 4 ≤ k
    · have h16 : 10 < 2 ^ k := by
        calc (10 : Nat) < 2 ^ 4 := by norm_num
        _ ≤ 2 ^ k := Nat.pow_le_pow_right (by norm_num) hk4
      rw [if_pos h16]
      have hks : k = (k - 1) + 1 := by omega
      rw [hks]
      exact ih (k - 1) (by omega)
    · have hk3 : k = 3 := by omega
      subst hk3
      norm_num

/-- On a stream shorter than 8 bytes the sync scanner reports nothing. -/
lemma mp3_scan_short (tf : GstTypeFind) (hlen : tf.data.length < 8)
    (startOff : Nat) :
    mp3_type_find_at_offset tf startOff = ⟨0, 0, 0, 0⟩ := by
  unfold mp3_type_find_at_offset
  rw [mp3OuterLoop]
  rw [if_pos (by norm_num [GST_MP3_TYPEFIND_TRY_SYNC]), if_pos rfl]
  have h4096 : GST_MP3_TYPEFIND_SYNC_SIZE * 2 = 2 ^ (11 + 1) := by
    norm_num [GST_MP3_TYPEFIND_SYNC_SIZE]
  rw [h4096, syncPeekSize_short tf _ hlen 12 11 (by norm_num)]

/-- On a stream shorter than 8 bytes the box walker's first peek fails. -/
lemma qt_short (tf : GstTypeFind) (hlen : tf.data.length < 8) :
    qt_type_find tf = none := by
  unfold qt_type_find
  dsimp only
  rw [show tf.data.length + 2 = (tf.data.length + 1) + 1 from rfl, qtLoop]
  have hpk : gst_type_find_peek tf ((0 : Nat) : Int) 8 = none := by
    rw [gst_type_find_peek_nat, if_neg (by omega)]
  rw [hpk]
  simp

/-- C8: streams below a probe's minimum span produce no suggestion. -/
theorem c8_thm (tf : GstTypeFind) :
    (tf.data.length < 4 → mp3_type_find tf = none) ∧
    (tf.data.length < 8 → qt_type_find tf = none) := by
  constructor
  · intro h4
    have h8 : tf.data.length < 8 := by omega
    unfold mp3_type_find
    simp only [mp3_scan_short tf h8]
    have hlenb : gst_type_find_get_length tf ≤ tf.data.length := by
      unfold gst_type_find_get_length
      split <;> omega
    by_cases hk : gst_type_find_get_length tf = 0
    · simp [hk]
    · rw [if_neg (by push_neg; exact ⟨hk, by omega⟩)]
      have hpk : gst_type_find_peek tf (0 : Int) 4 = none := by
        unfold gst_type_find_peek
        rw [if_pos le_rfl]
        rw [if_neg (by simpa using h4)]
      simp [hpk]
  · exact qt_short tf

/-- Witness for the C8 theorem on a 2-byte stream. -/
theorem c8_witness :
    tfTiny.data.length < 4 ∧ tfTiny.data.length < 8 ∧
    mp3_type_find tfTiny = none ∧ qt_type_find tfTiny = none :=
  ⟨by decide, by decide, (c8_thm tfTiny).1 (by decide),
    (c8_thm tfTiny).2 (by decide)⟩

/-- A list of length at least 4 starts with four explicit elements. -/
lemma exists_four (F : List Nat) (h4 : 4 ≤ F.length) :
    ∃ a b c d r, F = a :: b :: c :: d :: r := by
  rcases F with _ | ⟨a, _ | ⟨b, _ | ⟨c, _ | ⟨d, r⟩⟩⟩⟩
  · simp at h4
  · simp at h4
  · simp at h4
  · simp at h4
  · exact ⟨a, b, c, d, r, rfl⟩

/-- A successfully parsed header passed the sync-pattern test. -/
lemma parse_good_sync (H : Nat) (pfl : Option Nat) (len l c b sr : Nat)
    (h : mp3_type_frame_length_from_header H pfl = .good len l c b sr) :
    H &&& 0xffe00000 = 0xffe00000 := by
  by_contra hm
  unfold mp3_type_frame_length_from_header at h
  rw [if_pos hm] at h
  exact Mp3ParseResult.noConfusion h

/-- A well-formed frame starts with the byte 0xFF. -/
lemma wf_first_byte (F : List Nat) (h : WFframe F) : F.getD 0 0 = 255 := by
  obtain ⟨h4, hb, hparse⟩ := h
  obtain ⟨a, b, c, d, r, rfl⟩ := exists_four F h4
  have ha : a < 256 := hb a (by simp)
  have hbb : b < 256 := hb b (by simp)
  have hc : c < 256 := hb c (by simp)
  have hd : d < 256 := hb d (by simp)
  unfold goodFrameLen at hparse
  cases hp : mp3_type_frame_length_from_header
      (be32 ((a :: b :: c :: d :: r).take 4)) none with
  | bad mf =>
    rw [hp] at hparse
    simp at hparse
  | good len l ch br sr =>
    have hsync := parse_good_sync _ _ _ _ _ _ _ hp
    have hval : be32 ((a :: b :: c :: d :: r).take 4) =
        a * 16777216 + b * 65536 + c * 256 + d := rfl
    rw [hval] at hsync
    have hge : 0xffe00000 ≤ a * 16777216 + b * 65536 + c * 256 + d := by
      calc (0xffe00000 : Nat) =
          (a * 16777216 + b * 65536 + c * 256 + d) &&& 0xffe00000 := hsync.symm
      _ ≤ _ := Nat.and_le_left
    show a = 255
    omega

/-- Splitting a prefix sum of frame lengths at a valid index. -/
lemma lenUpTo_succ (fs : List (List Nat)) (i : Nat) (F : List Nat)
    (h : fs[i]? = some F) : lenUpTo fs (i + 1) = lenUpTo fs i + F.length := by
  unfold lenUpTo
  rw [List.take_succ, h]
  simp

/-- Dropping the first `i` frames of a flattened frame list. -/
lemma flatten_drop_lenUpTo (fs : List (List Nat)) :
    ∀ i, fs.flatten.drop (lenUpTo fs i) = (fs.drop i).flatten := by
  induction fs with
  | nil => intro i; simp [lenUpTo]
  | cons F fs ih =>
    intro i
    cases i with
    | zero => simp [lenUpTo]
    | succ n =>
      have h1 : lenUpTo (F :: fs) (n + 1) = F.length + lenUpTo fs n := by
        unfold lenUpTo
        simp [List.take_succ_cons]
      rw [h1]
      have h2 : (F :: fs).flatten = F ++ fs.flatten := by simp
      rw [h2, List.drop_append, List.drop_succ_cons]
      exact ih n

/-- The sum of a prefix is at most the sum. -/
lemma sum_take_le (l : List Nat) (n : Nat) : (l.take n).sum ≤ l.sum := by
  conv_rhs => rw [← List.take_append_drop n l]
  rw [List.sum_append]
  omega

/-- A prefix of frames fits inside the flattened stream. -/
lemma lenUpTo_le_length (fs : List (List Nat)) (i : Nat) :
    lenUpTo fs i ≤ fs.flatten.length := by
  rw [List.length_flatten]
  unfold lenUpTo
  rw [List.map_take]
  exact sum_take_le _ _

/-- The four header bytes of the `i`-th frame, read out of the flattened
stream. -/
lemma frame_slice (fs : List (List Nat)) (i : Nat) (F : List Nat)
    (hF : fs[i]? = some F) (h4 : 4 ≤ F.length) :
    (fs.flatten.drop (lenUpTo fs i)).take 4 = F.take 4 := by
  rw [flatten_drop_lenUpTo]
  have hi : i < fs.length := by
    by_contra h
    rw [List.getElem?_eq_none (by omega)] at hF
    exact Option.noConfusion hF
  have h2 : fs[i]? = some fs[i] :=
    (List.getElem?_eq_some_getElem_iff fs i hi).mpr trivial
  rw [h2] at hF
  have h3 : fs[i] = F := Option.some.inj hF
  rw [List.drop_eq_getElem_cons hi, h3]
  have h4' : (F :: (fs.drop (i + 1))).flatten = F ++ (fs.drop (i + 1)).flatten := by
    simp
  rw [h4', List.take_append_eq_append_take]
  rw [show 4 - F.length = 0 from by omega]
  simp

/-- When the four candidate header bytes lie inside the stream, both arms
of the buffered-read test deliver them. -/
lemma headRead_eq_peek (tf : GstTypeFind) (startOff skipped size offset : Nat)
    (h : startOff + offset + 4 ≤ tf.data.length) :
    headRead tf startOff skipped size offset =
      some ((tf.data.drop (startOff + offset)).take 4) := by
  unfold headRead
  split
  · rfl
  · rw [gst_type_find_peek_nat, if_pos h]

/-- On a stream with at least 8 readable bytes past `pos` the peek ladder
succeeds. -/
lemma syncPeekSize_succeeds (tf : GstTypeFind) (pos : Nat)
    (h : pos + 8 ≤ tf.data.length) :
    ∀ fuel k, 3 ≤ k → k ≤ fuel + 2 →
      ∃ sz, syncPeekSize tf pos fuel (2 ^ (k + 1)) = some sz := by
  intro fuel
  induction fuel with
  | zero => intro k hk hk2; omega
  | succ n ih =>
    intro k hk hk2
    have hhalf : 2 ^ (k + 1) / 2 = 2 ^ k := by
      rw [Nat.pow_succ]
      exact Nat.mul_div_cancel _ (by norm_num)
    rw [syncPeekSize]
    by_cases hfit : pos + 2 ^ k ≤ tf.data.length
    · refine ⟨2 ^ (k + 1) / 2, ?_⟩
      have hpeek : gst_type_find_peek tf (pos : Int) (2 ^ (k + 1) / 2) =
          some ((tf.data.drop pos).take (2 ^ (k + 1) / 2)) := by
        rw [gst_type_find_peek_nat, if_pos (by omega)]
      rw [hpeek]
    · have hpeek : gst_type_find_peek tf (pos : Int) (2 ^ (k + 1) / 2) =
          none := by
        rw [gst_type_find_peek_nat, if_neg (by omega)]
      rw [hpeek, hhalf]
      have hk4 : 4 ≤ k := by
        by_contra hc
        have hk3 : k = 3 := by omega
        subst hk3
        norm_num at hfit
        omega
      have h16 : 10 < 2 ^ k := by
        calc (10 : Nat) < 2 ^ 4 := by norm_num
        _ ≤ 2 ^ k := Nat.pow_le_pow_right (by norm_num) hk4
      rw [if_pos h16]
      rw [show k = (k - 1) + 1 from by omega]
      exact ih (k - 1) (by omega) (by omega)

/-- The inconsistency test of the chain loop compares against freshly
zeroed `prev_*` locals, so every valid parse increments `found`. -/
lemma chainGood_eq (s : ChainState)
    (length layer channels bitrate samplerate : Nat) :
    chainGood s length layer channels bitrate samplerate =
      { s with offset := s.offset + length, found := s.found + 1,
               layer := layer, channels := channels, bitrate := bitrate,
               samplerate := samplerate, headDataNone := false } := by
  unfold chainGood
  simp

/-- Starting the chain loop at frame boundary `i` of a stream of
well-formed frames counts every remaining frame up to `TRY_HEADERS`. -/
lemma chainLoop_wf (tf : GstTypeFind) (fs : List (List Nat)) (size : Nat)
    (hdata : tf.data = fs.flatten) (hwf : ∀ F ∈ fs, WFframe F)
    (hlen : 5 ≤ fs.length) :
    ∀ fuel i s, i ≤ 5 → 6 - i ≤ fuel → s.found = i →
      s.offset = lenUpTo fs i → s.lastFreeFramelen = none →
      (chainLoop tf 0 0 size fuel s).found = 5 := by
  intro fuel
  induction fuel with
  | zero => intro i s hi hf _ _ _; omega
  | succ n ih =>
    intro i s hi hf hfound hoff hfree
    by_cases h5 : i = 5
    · rw [chainLoop, if_neg (by
        unfold GST_MP3_TYPEFIND_TRY_HEADERS
        omega)]
      omega
    · have hi5 : i < 5 := by omega
      have hilen : i < fs.length := by omega
      have hF : fs[i]? = some fs[i] :=
        (List.getElem?_eq_some_getElem_iff fs i hilen).mpr trivial
      have hwfF : WFframe fs[i] := hwf _ (List.getElem?_mem hF)
      obtain ⟨h4F, hbF, hgoodF⟩ := hwfF
      have hup : lenUpTo fs (i + 1) ≤ tf.data.length := by
        rw [hdata]
        exact lenUpTo_le_length fs (i + 1)
      have hsucc : lenUpTo fs (i + 1) = lenUpTo fs i + (fs[i]).length :=
        lenUpTo_succ fs i _ hF
      have hbound : 0 + lenUpTo fs i + 4 ≤ tf.data.length := by omega
      have hread : headRead tf 0 0 size s.offset = some ((fs[i]).take 4) := by
        rw [hoff, headRead_eq_peek tf 0 0 size _ hbound, hdata]
        rw [Nat.zero_add, frame_slice fs i _ hF h4F]
      have hgood : ∃ l c b sr,
          mp3_type_frame_length_from_header (be32 ((fs[i]).take 4)) none =
            .good (fs[i]).length l c b sr := by
        unfold goodFrameLen at hgoodF
        cases hp : mp3_type_frame_length_from_header
            (be32 ((fs[i]).take 4)) none with
        | bad mf =>
          rw [hp] at hgoodF
          simp at hgoodF
        | good len l c b sr =>
          rw [hp] at hgoodF
          simp at hgoodF
          exact ⟨l, c, b, sr, by rw [hgoodF]⟩
      obtain ⟨l, c, b, sr, hp⟩ := hgood
      rw [chainLoop, if_pos (by
        unfold GST_MP3_TYPEFIND_TRY_HEADERS
        omega), hread]
      dsimp only
      rw [hfree, hp]
      dsimp only
      rw [if_neg (by omega : ¬(fs[i]).length = 0)]
      rw [chainGood_eq]
      refine ih (i + 1) _ (by omega) (by omega) (by simp [hfound]) ?_ (by simp [hfree])
      simp [hoff, hsucc]

/-- At a confirmed 5-frame chain at offset 0 with no skipped bytes and a
clean trailer, the probability computes to 100. -/
lemma mp3ComputeProb_clean (tf : GstTypeFind) (hknown : tf.lengthKnown = true)
    (hlen : 128 ≤ tf.data.length)
    (htag : (tf.data.drop (tf.data.length - 128)).take 3 ≠ [84, 65, 71]) :
    mp3ComputeProb tf 0 5 0 = 100 := by
  unfold mp3ComputeProb GST_MP3_TYPEFIND_TRY_SYNC GST_MP3_TYPEFIND_TRY_HEADERS
  dsimp only
  have hpk : gst_type_find_peek tf (-128) 3 =
      some ((tf.data.drop (tf.data.length - 128)).take 3) := by
    unfold gst_type_find_peek
    rw [if_neg (by norm_num), if_pos hknown]
    rw [if_pos (by constructor <;> omega)]
    have ht : ((tf.data.length : Int) + (-128)).toNat = tf.data.length - 128 := by
      omega
    rw [ht]
  rw [hpk]
  simp only [Option.some.injEq]
  rw [if_neg htag]
  norm_num

/-- C2 amended: a stream of at least five well-formed frames, long enough
for the trailer check and without a trailing "TAG", confirms a 5-frame
chain at offset 0 with no skipped bytes and probability 100. -/
theorem c2_thm (tf : GstTypeFind) (fs : List (List Nat))
    (hdata : tf.data = fs.flatten) (hwf : ∀ F ∈ fs, WFframe F)
    (hn : 5 ≤ fs.length) (hknown : tf.lengthKnown = true)
    (h128 : 128 ≤ tf.data.length)
    (htag : (tf.data.drop (tf.data.length - 128)).take 3 ≠ [84, 65, 71]) :
    (mp3_type_find_at_offset tf 0).found = 5 ∧
    (mp3_type_find_at_offset tf 0).skipped = 0 ∧
    (mp3_type_find_at_offset tf 0).prob = 100 := by
  have h8 : (0 : Nat) + 8 ≤ tf.data.length := by omega
  obtain ⟨sz, hsz⟩ :=
    syncPeekSize_succeeds tf 0 h8 12 11 (by norm_num) (by norm_num)
  have hbyte : tf.data.getD 0 0 = 255 := by
    rcases fs with _ | ⟨F0, fs'⟩
    · simp at hn
    · have hwf0 : WFframe F0 := hwf F0 (by simp)
      have hflat : tf.data = F0 ++ fs'.flatten := by
        rw [hdata]
        simp
      have h0 : 0 < F0.length := by
        obtain ⟨h4, _, _⟩ := hwf0
        omega
      rw [hflat, List.getD_append F0 fs'.flatten 0 0 h0]
      exact wf_first_byte F0 hwf0
  have hchain := chainLoop_wf tf fs sz hdata hwf hn 16 0
    ⟨0, 0, 0, 0, 0, 0, none, none, true⟩ (by omega) (by omega) rfl rfl rfl
  unfold mp3_type_find_at_offset
  rw [mp3OuterLoop]
  rw [if_pos (by norm_num [GST_MP3_TYPEFIND_TRY_SYNC]), if_pos rfl]
  rw [show GST_MP3_TYPEFIND_SYNC_SIZE * 2 = 2 ^ (11 + 1) from by
    norm_num [GST_MP3_TYPEFIND_SYNC_SIZE]]
  rw [show (0 : Nat) + 0 = 0 from rfl]
  rw [hsz]
  dsimp only
  rw [if_pos hbyte]
  rw [show GST_MP3_TYPEFIND_TRY_HEADERS = 5 from rfl]
  rw [if_pos (Or.inl hchain)]
  refine ⟨hchain, rfl, ?_⟩
  dsimp only
  rw [hchain, mp3ComputeProb_clean tf hknown h128 htag]

/-- Witness for the C2 theorem on six concrete minimal frames. -/
theorem c2_thm_witness :
    tfSixFrames.data = (List.replicate 6 mp3FrameA).flatten ∧
    5 ≤ (List.replicate 6 mp3FrameA).length ∧
    128 ≤ tfSixFrames.data.length ∧
    ((mp3_type_find_at_offset tfSixFrames 0).found = 5 ∧
      (mp3_type_find_at_offset tfSixFrames 0).skipped = 0 ∧
      (mp3_type_find_at_offset tfSixFrames 0).prob = 100) :=
  ⟨rfl, by decide, by decide,
    c2_thm tfSixFrames (List.replicate 6 mp3FrameA) rfl (by decide)
      (by decide) rfl (by decide) (by decide)⟩
